import Mathlib

/-!
Verification development for `Telegram/SourceFiles/settings/settings_scale_preview.cpp`
(the scale-preview popup of Telegram Desktop).

The file shallowly embeds the layout, caching, positioning and visibility logic of the
`Preview` class and the `SetupScalePreview` entry point, and proves (or refutes) the
specification's claims about them.

Conventions of the embedding:
- `QRect` becomes `Rect` with `Int` coordinates (`x`, `y`, `w`, `h`).
- Text measurement (`Ui::Text::String::maxWidth`, `countHeight`, `style::font::height`)
  is performed by Qt outside this translation unit, so it is supplied as an explicit
  `TextMetrics` record parameter.
- `style::ConvertScale` lives in lib_ui, outside the sources at hand; it is modelled
  from the spec as proportional scaling with rounding to the nearest integer.
- Raster buffers and painter calls are modelled only where a claim needs them
  (cache emptiness flags, draw-command parameters, an effect trace).
-/

namespace ScalePreview

/-- Modelled from the spec: `style::ConvertScale` (lib_ui, not among the sources here).
The spec says dimensions are scaled "proportionally to scale" where scale is an integer
percentage; the standard rounding form is `(value * scale + 50) / 100`. -/
def ConvertScale (value scale : Nat) : Nat :=
  (value * scale + 50) / 100

/-- A rectangle with integer coordinates, as `QRect` (origin `x`,`y`, size `w`,`h`). -/
structure Rect where
  x : Int
  y : Int
  w : Int
  h : Int
deriving Repr, DecidableEq

/-- `QRect::marginsAdded`: grow a rect by margins on each side. -/
def Rect.marginsAdded (r : Rect) (left top right bottom : Int) : Rect :=
  ⟨r.x - left, r.y - top, r.w + left + right, r.h + top + bottom⟩

/-- `std::clamp` on `Int` (as used with `int` in the source). -/
def clampI (v lo hi : Int) : Int :=
  if v < lo then lo else if hi < v then hi else v

/-- The text measurements delivered by Qt for the current scale: maximal (unwrapped)
widths of the three example texts, the two font heights, and the wrapped height of the
message text as a function of the available width (`Ui::Text::String::countHeight`). -/
structure TextMetrics where
  nameMaxWidth : Nat
  replyMaxWidth : Nat
  messageMaxWidth : Nat
  nameFontHeight : Nat
  textFontHeight : Nat
  messageCountHeight : Nat → Nat

/-- `scaled(value)` of the source: `style::ConvertScale(value, _scale)`, as `Int`. -/
def scI (scale : Nat) (value : Nat) : Int :=
  (ConvertScale value scale : Int)

/-- `kMinTextWidth` (settings_scale_preview.cpp:35). -/
def kMinTextWidth : Nat := 120

/-- `kMaxTextWidth` (settings_scale_preview.cpp:36). -/
def kMaxTextWidth : Nat := 320

/-- `kMaxTextLines` (settings_scale_preview.cpp:37). -/
def kMaxTextLines : Nat := 3

/-- `wantedWidth` of `Preview::updateToScale` (settings_scale_preview.cpp:356-360):
`std::max({namePosition.x() + _nameText.maxWidth(), replyPosition.x() + _replyText.maxWidth(), _messageText.maxWidth()})`
where both positions have x = `scaled(10)`. -/
def wantedWidth (scale : Nat) (m : TextMetrics) : Int :=
  max (max (scI scale 10 + (m.nameMaxWidth : Int)) (scI scale 10 + (m.replyMaxWidth : Int)))
    (m.messageMaxWidth : Int)

/-- `messageWidth` of `Preview::updateToScale` (settings_scale_preview.cpp:362-367):
`std::clamp(wantedWidth, scaled(kMinTextWidth), scaled(kMaxTextWidth))`. -/
def messageWidth (scale : Nat) (m : TextMetrics) : Int :=
  clampI (wantedWidth scale m) (scI scale kMinTextWidth) (scI scale kMaxTextWidth)

/-- `messageHeight` of `Preview::updateToScale` (settings_scale_preview.cpp:368-370):
`std::min(_messageText.countHeight(maxTextWidth), kMaxTextLines * _textStyle.font->height)`. -/
def messageHeight (scale : Nat) (m : TextMetrics) : Nat :=
  min (m.messageCountHeight (ConvertScale kMaxTextWidth scale))
    (kMaxTextLines * m.textFontHeight)

/-- The rect tree computed by `Preview::updateToScale` (settings_scale_preview.cpp:344-419).
Origins are relative to the parent rect, exactly as the source normalizes them. -/
structure Geometry where
  replyBar : Rect
  name : Rect
  reply : Rect
  message : Rect
  content : Rect
  bubble : Rect
  userpic : Rect
  inner : Rect
  outer : Rect
deriving Repr, DecidableEq

/-- The geometry part of `Preview::updateToScale` (settings_scale_preview.cpp:344-419),
translated statement by statement. `hasUserpic` is `!_userpicOriginal.isNull()`;
`oldUserpic` is the previous `_userpic`, which the source leaves untouched when there is
no userpic. -/
def layout (scale : Nat) (hasUserpic : Bool) (oldUserpic : Rect) (m : TextMetrics) :
    Geometry :=
  let sc := scI scale
  -- _replyBar = QRect(scaled(1), scaled(6) + 0, scaled(2), scaled(36));
  let replyBar : Rect := ⟨sc 1, sc 6, sc 2, sc 36⟩
  -- namePosition = QPoint(scaled(10), scaled(6));
  -- replyPosition = QPoint(scaled(10), scaled(6) + _nameStyle.font->height);
  let mw := messageWidth scale m
  let mh : Int := (messageHeight scale m : Int)
  -- _name = QRect(namePosition, QSize(messageWidth - namePosition.x(), nameFont height));
  let name : Rect := ⟨sc 10, sc 6, mw - sc 10, (m.nameFontHeight : Int)⟩
  -- _reply = QRect(replyPosition, QSize(messageWidth - replyPosition.x(), textFont height));
  let reply : Rect :=
    ⟨sc 10, sc 6 + (m.nameFontHeight : Int), mw - sc 10, (m.textFontHeight : Int)⟩
  -- replySkip = _replyBar.y() + _replyBar.height() + scaled(6);
  let replySkip := replyBar.y + replyBar.h + sc 6
  -- _message = QRect(0, 0, messageWidth, messageHeight); _message.moveTop(replySkip);
  let message : Rect := ⟨0, replySkip, mw, mh⟩
  -- _content = QRect(0, 0, messageWidth, replySkip + messageHeight);
  let content0 : Rect := ⟨0, 0, mw, replySkip + mh⟩
  -- msgPadding = scaled(QMargins(13, 7, 13, 8)); _bubble = _content.marginsAdded(msgPadding);
  let bubble0 := content0.marginsAdded (sc 13) (sc 7) (sc 13) (sc 8)
  -- _content.moveTopLeft(-_bubble.topLeft()); _bubble.moveTopLeft({});
  let content : Rect := ⟨-bubble0.x, -bubble0.y, content0.w, content0.h⟩
  let bubble1 : Rect := ⟨0, 0, bubble0.w, bubble0.h⟩
  -- bubbleMargin = scaled(QMargins(20, 16, 20, 16)); userpicSkip = hasUserpic ? scaled(40) : 0;
  let userpicSkip : Int := if hasUserpic then sc 40 else 0
  -- _inner = _bubble.marginsAdded(bubbleMargin + QMargins(userpicSkip, 0, 0, 0));
  let inner0 := bubble1.marginsAdded (sc 20 + userpicSkip) (sc 16) (sc 20) (sc 16)
  -- _bubble.moveTopLeft(-_inner.topLeft()); _inner.moveTopLeft({});
  let bubble : Rect := ⟨-inner0.x, -inner0.y, bubble1.w, bubble1.h⟩
  let inner1 : Rect := ⟨0, 0, inner0.w, inner0.h⟩
  -- _userpic = QRect(bubbleMargin.left(), _bubble.y() + _bubble.height() - userpicSize,
  --     userpicSize, userpicSize); only when hasUserpic (userpicSize = scaled(33))
  let userpic : Rect :=
    if hasUserpic then ⟨sc 20, bubble.y + bubble.h - sc 33, sc 33, sc 33⟩ else oldUserpic
  -- _shadow.extend = scaled(QMargins(9, 8, 9, 10)); _outer = _inner.marginsAdded(extend);
  let outer0 := inner1.marginsAdded (sc 9) (sc 8) (sc 9) (sc 10)
  -- _inner.moveTopLeft(-_outer.topLeft()); _outer.moveTopLeft({});
  let inner : Rect := ⟨-outer0.x, -outer0.y, inner1.w, inner1.h⟩
  let outer : Rect := ⟨0, 0, outer0.w, outer0.h⟩
  ⟨replyBar, name, reply, message, content, bubble, userpic, inner, outer⟩

/-- The parameters `Preview::paintMessage` passes to `drawLeftElided`
(settings_scale_preview.cpp:651-660): position (0,0), available and outer width both
`_message.width()`, and the line limit `kMaxTextLines`. -/
structure TextDrawCmd where
  x : Int
  y : Int
  availWidth : Int
  outerWidth : Int
  linesLimit : Nat
deriving Repr, DecidableEq

/-- embedding of `Preview::paintMessage` (settings_scale_preview.cpp:651-660): the draw
command it issues for the message text. -/
def paintMessageCmd (g : Geometry) : TextDrawCmd :=
  ⟨0, 0, g.message.w, g.message.w, kMaxTextLines⟩

theorem clampI_bounds (v lo hi : Int) (h : lo ≤ hi) :
    lo ≤ clampI v lo hi ∧ clampI v lo hi ≤ hi := by
  simp only [clampI]
  split_ifs <;> omega

theorem ConvertScale_mono_value {a b : Nat} (s : Nat) (h : a ≤ b) :
    ConvertScale a s ≤ ConvertScale b s :=
  Nat.div_le_div_right (Nat.add_le_add_right (Nat.mul_le_mul_right s h) 50)

theorem ConvertScale_mono_scale (v : Nat) {s t : Nat} (h : s ≤ t) :
    ConvertScale v s ≤ ConvertScale v t :=
  Nat.div_le_div_right (Nat.add_le_add_right (Nat.mul_le_mul_left v h) 50)

theorem ConvertScale_one_add_two_le (s : Nat) :
    ConvertScale 1 s + ConvertScale 2 s ≤ ConvertScale 120 s := by
  match s with
  | 0 => decide
  | (t+1) =>
    calc ConvertScale 1 (t+1) + ConvertScale 2 (t+1)
        ≤ (1 * (t+1) + 50 + (2 * (t+1) + 50)) / 100 := Nat.add_div_le_add_div _ _ _
      _ ≤ (120 * (t+1) + 50) / 100 := Nat.div_le_div_right (by omega)

theorem messageWidth_bounds (scale : Nat) (m : TextMetrics) :
    scI scale kMinTextWidth ≤ messageWidth scale m
      ∧ messageWidth scale m ≤ scI scale kMaxTextWidth := by
  refine clampI_bounds _ _ _ ?_
  have := ConvertScale_mono_value (a := kMinTextWidth) (b := kMaxTextWidth) scale (by decide)
  simp only [scI]
  exact_mod_cast this

theorem layout_message_w (scale : Nat) (b : Bool) (old : Rect) (m : TextMetrics) :
    (layout scale b old m).message.w = messageWidth scale m := rfl

theorem layout_message_h (scale : Nat) (b : Bool) (old : Rect) (m : TextMetrics) :
    (layout scale b old m).message.h = (messageHeight scale m : Int) := rfl

theorem layout_content_w (scale : Nat) (b : Bool) (old : Rect) (m : TextMetrics) :
    (layout scale b old m).content.w = messageWidth scale m := rfl

/-- C8: for every scale and every example-text measurement, the message (content) width
computed by `updateToScale` equals the maximum of name-start+name-width,
reply-start+reply-width and the message natural width clamped to
`[scaled(120), scaled(320)]`, and therefore lies in that closed interval; the content
rect shares that width. -/
theorem content_width_clamped (scale : Nat) (b : Bool) (old : Rect) (m : TextMetrics) :
    (layout scale b old m).message.w
        = clampI (wantedWidth scale m) (scI scale 120) (scI scale 320)
      ∧ scI scale 120 ≤ (layout scale b old m).message.w
      ∧ (layout scale b old m).message.w ≤ scI scale 320
      ∧ (layout scale b old m).content.w = (layout scale b old m).message.w := by
  have h := messageWidth_bounds scale m
  simp only [kMinTextWidth, kMaxTextWidth] at h
  exact ⟨rfl, by rw [layout_message_w]; exact h.1, by rw [layout_message_w]; exact h.2, rfl⟩

/-- C9: the message body never occupies more than 3 lines — the message rect height
computed by `updateToScale` is at most `kMaxTextLines = 3` times the scaled text font
height, and `paintMessage` draws the text elided with that same 3-line limit. -/
theorem message_limited_to_three_lines (scale : Nat) (b : Bool) (old : Rect)
    (m : TextMetrics) :
    (layout scale b old m).message.h ≤ 3 * (m.textFontHeight : Int)
      ∧ (paintMessageCmd (layout scale b old m)).linesLimit = kMaxTextLines
      ∧ kMaxTextLines = 3 := by
  refine ⟨?_, rfl, rfl⟩
  rw [layout_message_h]
  have h : messageHeight scale m ≤ 3 * m.textFontHeight := by
    simp only [messageHeight, kMaxTextLines]
    exact min_le_right _ _
  exact_mod_cast h

/-- A child rect, given in coordinates relative to its parent, has a non-negative origin
and does not exceed the parent's bounds. -/
def within (parent child : Rect) : Prop :=
  0 ≤ child.x ∧ 0 ≤ child.y ∧ child.x + child.w ≤ parent.w ∧ child.y + child.h ≤ parent.h

instance (parent child : Rect) : Decidable (within parent child) := by
  unfold within; infer_instance

theorem textFontHeight_le_messageHeight (scale : Nat) (m : TextMetrics)
    (hmsg : m.textFontHeight ≤ m.messageCountHeight (ConvertScale kMaxTextWidth scale)) :
    m.textFontHeight ≤ messageHeight scale m := by
  simp only [messageHeight, kMaxTextLines]
  exact le_min hmsg (by omega)

/-- C7: after `updateToScale`, the rect tree is normalized — every rect has a
non-negative origin relative to its parent and stays inside the parent's bounds:
replyBar, name, reply and message inside the content rect; content inside the bubble;
bubble (and the userpic, when present) inside the inner rect; inner inside the outer
rect, whose origin is (0,0). Holds whenever the name font height does not exceed the
scaled reply-bar height (`scaled(36)`) and the wrapped message height is at least one
text line — both true of the real scaled fonts. -/
theorem rect_tree_normalized (scale : Nat) (b : Bool) (old : Rect) (m : TextMetrics)
    (hname : m.nameFontHeight ≤ ConvertScale 36 scale)
    (hmsg : m.textFontHeight ≤ m.messageCountHeight (ConvertScale kMaxTextWidth scale)) :
    within (layout scale b old m).content (layout scale b old m).replyBar
      ∧ within (layout scale b old m).content (layout scale b old m).name
      ∧ within (layout scale b old m).content (layout scale b old m).reply
      ∧ within (layout scale b old m).content (layout scale b old m).message
      ∧ within (layout scale b old m).bubble (layout scale b old m).content
      ∧ within (layout scale b old m).inner (layout scale b old m).bubble
      ∧ (b = true → within (layout scale b old m).inner (layout scale b old m).userpic)
      ∧ within (layout scale b old m).outer (layout scale b old m).inner
      ∧ (layout scale b old m).outer.x = 0 ∧ (layout scale b old m).outer.y = 0 := by
  have hmwb := messageWidth_bounds scale m
  simp only [scI] at hmwb
  obtain ⟨mw, hmwe, hmw1, hmw2⟩ :
      ∃ x : Int, messageWidth scale m = x
        ∧ ((ConvertScale kMinTextWidth scale : Nat) : Int) ≤ x
        ∧ x ≤ ((ConvertScale kMaxTextWidth scale : Nat) : Int) :=
    ⟨_, rfl, hmwb.1, hmwb.2⟩
  obtain ⟨mh, hmhe, hmh1⟩ :
      ∃ x : Nat, messageHeight scale m = x ∧ m.textFontHeight ≤ x :=
    ⟨_, rfl, textFontHeight_le_messageHeight scale m hmsg⟩
  have h12 : ConvertScale 1 scale + ConvertScale 2 scale ≤ ConvertScale kMinTextWidth scale :=
    ConvertScale_one_add_two_le scale
  have h3336 : ConvertScale 33 scale ≤ ConvertScale 36 scale :=
    ConvertScale_mono_value scale (by omega)
  have h33120 : ConvertScale 33 scale ≤ ConvertScale kMinTextWidth scale :=
    ConvertScale_mono_value scale (by decide)
  cases b <;>
    simp only [within, layout, Rect.marginsAdded, eq_self_iff_true, if_true, if_false,
      Bool.false_eq_true, false_implies, forall_const, true_and, and_true, scI,
      hmwe, hmhe] <;>
    omega

theorem clampI_mono {v1 v2 lo1 lo2 hi1 hi2 : Int} (hv : v1 ≤ v2) (hlo : lo1 ≤ lo2)
    (hhi : hi1 ≤ hi2) (hlh2 : lo2 ≤ hi2) :
    clampI v1 lo1 hi1 ≤ clampI v2 lo2 hi2 := by
  simp only [clampI]
  split_ifs <;> omega

theorem wantedWidth_mono {s1 s2 : Nat} {m1 m2 : TextMetrics} (hs : s1 ≤ s2)
    (h1 : m1.nameMaxWidth ≤ m2.nameMaxWidth)
    (h2 : m1.replyMaxWidth ≤ m2.replyMaxWidth)
    (h3 : m1.messageMaxWidth ≤ m2.messageMaxWidth) :
    wantedWidth s1 m1 ≤ wantedWidth s2 m2 := by
  have h10 := ConvertScale_mono_scale 10 hs
  simp only [wantedWidth, scI]
  omega

theorem messageWidth_mono {s1 s2 : Nat} {m1 m2 : TextMetrics} (hs : s1 ≤ s2)
    (h1 : m1.nameMaxWidth ≤ m2.nameMaxWidth)
    (h2 : m1.replyMaxWidth ≤ m2.replyMaxWidth)
    (h3 : m1.messageMaxWidth ≤ m2.messageMaxWidth) :
    messageWidth s1 m1 ≤ messageWidth s2 m2 := by
  have hlo := ConvertScale_mono_scale kMinTextWidth hs
  have hhi := ConvertScale_mono_scale kMaxTextWidth hs
  have hlh2 := ConvertScale_mono_value (a := kMinTextWidth) (b := kMaxTextWidth) s2 (by decide)
  exact clampI_mono (wantedWidth_mono hs h1 h2 h3) (by simp only [scI]; exact_mod_cast hlo)
    (by simp only [scI]; exact_mod_cast hhi) (by simp only [scI]; exact_mod_cast hlh2)

theorem messageHeight_mono {s1 s2 : Nat} {m1 m2 : TextMetrics}
    (h5 : m1.textFontHeight ≤ m2.textFontHeight)
    (h6 : m1.messageCountHeight (ConvertScale kMaxTextWidth s1)
      ≤ m2.messageCountHeight (ConvertScale kMaxTextWidth s2)) :
    messageHeight s1 m1 ≤ messageHeight s2 m2 := by
  simp only [messageHeight]
  exact min_le_min h6 (Nat.mul_le_mul_left kMaxTextLines h5)

/-- C6: for scales `s1 ≤ s2`, the geometry recomputed by `updateToScale` is
monotonically non-decreasing in every dimension — the widths and heights of the outer,
inner and bubble rects at `s2` are at least those at `s1` — provided the externally
measured text metrics (Qt font measurements) are themselves non-decreasing in scale,
as they are for proportionally scaled fonts. -/
theorem geometry_monotone (s1 s2 : Nat) (b : Bool) (old1 old2 : Rect)
    (m1 m2 : TextMetrics) (hs : s1 ≤ s2)
    (h1 : m1.nameMaxWidth ≤ m2.nameMaxWidth)
    (h2 : m1.replyMaxWidth ≤ m2.replyMaxWidth)
    (h3 : m1.messageMaxWidth ≤ m2.messageMaxWidth)
    (h5 : m1.textFontHeight ≤ m2.textFontHeight)
    (h6 : m1.messageCountHeight (ConvertScale kMaxTextWidth s1)
      ≤ m2.messageCountHeight (ConvertScale kMaxTextWidth s2)) :
    (layout s1 b old1 m1).outer.w ≤ (layout s2 b old2 m2).outer.w
      ∧ (layout s1 b old1 m1).outer.h ≤ (layout s2 b old2 m2).outer.h
      ∧ (layout s1 b old1 m1).inner.w ≤ (layout s2 b old2 m2).inner.w
      ∧ (layout s1 b old1 m1).inner.h ≤ (layout s2 b old2 m2).inner.h
      ∧ (layout s1 b old1 m1).bubble.w ≤ (layout s2 b old2 m2).bubble.w
      ∧ (layout s1 b old1 m1).bubble.h ≤ (layout s2 b old2 m2).bubble.h := by
  obtain ⟨mwa, hmwae⟩ : ∃ x : Int, messageWidth s1 m1 = x := ⟨_, rfl⟩
  obtain ⟨mwb, hmwbe⟩ : ∃ x : Int, messageWidth s2 m2 = x := ⟨_, rfl⟩
  obtain ⟨mha, hmhae⟩ : ∃ x : Nat, messageHeight s1 m1 = x := ⟨_, rfl⟩
  obtain ⟨mhb, hmhbe⟩ : ∃ x : Nat, messageHeight s2 m2 = x := ⟨_, rfl⟩
  have hmw : mwa ≤ mwb := hmwae ▸ hmwbe ▸ messageWidth_mono hs h1 h2 h3
  have hmh : mha ≤ mhb := hmhae ▸ hmhbe ▸ messageHeight_mono h5 h6
  have c6 := ConvertScale_mono_scale 6 hs
  have c7 := ConvertScale_mono_scale 7 hs
  have c8 := ConvertScale_mono_scale 8 hs
  have c9 := ConvertScale_mono_scale 9 hs
  have c10 := ConvertScale_mono_scale 10 hs
  have c13 := ConvertScale_mono_scale 13 hs
  have c16 := ConvertScale_mono_scale 16 hs
  have c20 := ConvertScale_mono_scale 20 hs
  have c36 := ConvertScale_mono_scale 36 hs
  have c40 := ConvertScale_mono_scale 40 hs
  cases b <;>
    simp only [layout, Rect.marginsAdded, eq_self_iff_true, if_true, if_false,
      Bool.false_eq_true, scI, hmwae, hmwbe, hmhae, hmhbe] <;>
    omega

/-- Concrete example text measurements, as a plausible 100%-scale Qt measurement of
the three example strings. -/
def metricsA : TextMetrics :=
  { nameMaxWidth := 70
    replyMaxWidth := 95
    messageMaxWidth := 190
    nameFontHeight := 18
    textFontHeight := 18
    messageCountHeight := fun _ => 36 }

/-- Concrete example text measurements at doubled scale (every quantity doubled). -/
def metricsB : TextMetrics :=
  { nameMaxWidth := 140
    replyMaxWidth := 190
    messageMaxWidth := 380
    nameFontHeight := 36
    textFontHeight := 36
    messageCountHeight := fun _ => 72 }

/-- Witness for the C7 rect-tree theorem at scale 100 with a userpic present. -/
theorem rect_tree_normalized_witness :
    within (layout 100 true ⟨0, 0, 0, 0⟩ metricsA).content
        (layout 100 true ⟨0, 0, 0, 0⟩ metricsA).replyBar
      ∧ within (layout 100 true ⟨0, 0, 0, 0⟩ metricsA).content
        (layout 100 true ⟨0, 0, 0, 0⟩ metricsA).name
      ∧ within (layout 100 true ⟨0, 0, 0, 0⟩ metricsA).content
        (layout 100 true ⟨0, 0, 0, 0⟩ metricsA).reply
      ∧ within (layout 100 true ⟨0, 0, 0, 0⟩ metricsA).content
        (layout 100 true ⟨0, 0, 0, 0⟩ metricsA).message
      ∧ within (layout 100 true ⟨0, 0, 0, 0⟩ metricsA).bubble
        (layout 100 true ⟨0, 0, 0, 0⟩ metricsA).content
      ∧ within (layout 100 true ⟨0, 0, 0, 0⟩ metricsA).inner
        (layout 100 true ⟨0, 0, 0, 0⟩ metricsA).bubble
      ∧ (true = true → within (layout 100 true ⟨0, 0, 0, 0⟩ metricsA).inner
        (layout 100 true ⟨0, 0, 0, 0⟩ metricsA).userpic)
      ∧ within (layout 100 true ⟨0, 0, 0, 0⟩ metricsA).outer
        (layout 100 true ⟨0, 0, 0, 0⟩ metricsA).inner
      ∧ (layout 100 true ⟨0, 0, 0, 0⟩ metricsA).outer.x = 0
      ∧ (layout 100 true ⟨0, 0, 0, 0⟩ metricsA).outer.y = 0 :=
  rect_tree_normalized 100 true ⟨0, 0, 0, 0⟩ metricsA (by decide) (by decide)

/-- Witness for the C6 monotonicity theorem between scales 100 and 200. -/
theorem geometry_monotone_witness :
    (layout 100 false ⟨0, 0, 0, 0⟩ metricsA).outer.w
        ≤ (layout 200 false ⟨0, 0, 0, 0⟩ metricsB).outer.w
      ∧ (layout 100 false ⟨0, 0, 0, 0⟩ metricsA).outer.h
        ≤ (layout 200 false ⟨0, 0, 0, 0⟩ metricsB).outer.h
      ∧ (layout 100 false ⟨0, 0, 0, 0⟩ metricsA).inner.w
        ≤ (layout 200 false ⟨0, 0, 0, 0⟩ metricsB).inner.w
      ∧ (layout 100 false ⟨0, 0, 0, 0⟩ metricsA).inner.h
        ≤ (layout 200 false ⟨0, 0, 0, 0⟩ metricsB).inner.h
      ∧ (layout 100 false ⟨0, 0, 0, 0⟩ metricsA).bubble.w
        ≤ (layout 200 false ⟨0, 0, 0, 0⟩ metricsB).bubble.w
      ∧ (layout 100 false ⟨0, 0, 0, 0⟩ metricsA).bubble.h
        ≤ (layout 200 false ⟨0, 0, 0, 0⟩ metricsB).bubble.h :=
  geometry_monotone 100 200 false ⟨0, 0, 0, 0⟩ ⟨0, 0, 0, 0⟩ metricsA metricsB
    (by decide) (by decide) (by decide) (by decide) (by decide) (by decide)

/-- The request kinds of the externally invoked toggle operation
(`ScalePreviewShow` from settings_scale_preview.h, declared outside this .cpp):
`Show`, `Update`, `Hide`. -/
inductive ScalePreviewShow where
  | Show
  | Update
  | Hide
deriving Repr, DecidableEq

/-- Modelled from the spec: `Ui::Animations::Simple` (lib_ui, outside the sources at
hand). Per the spec, transitions are last-write-wins on the target value with no queued
transitions: starting while a transition is in progress redirects the interpolation
target, continuing from the current progress; starting while idle begins at the given
initial value. `value final` is the current progress while animating and `final`
otherwise. -/
structure SimpleAnim where
  animating : Bool
  current : ℚ
  target : ℚ
deriving Repr, DecidableEq

/-- Start a transition toward `vto` (`Simple::start`): from the current progress if one
is running, else from `vfrom`. -/
def SimpleAnim.start (a : SimpleAnim) (vfrom vto : ℚ) : SimpleAnim :=
  { animating := true
    current := if a.animating then a.current else vfrom
    target := vto }

/-- `Simple::stop`: the animation object stops ticking. -/
def SimpleAnim.stop (a : SimpleAnim) : SimpleAnim :=
  { a with animating := false }

/-- `Simple::value(final)`: current progress while animating, `final` otherwise. -/
def SimpleAnim.value (a : SimpleAnim) (final : ℚ) : ℚ :=
  if a.animating then a.current else final

/-- Externally visible side effects of the widget, recorded as a trace. -/
inductive Effect where
  | widgetShow
  | widgetHide
  | animStart
  | animStop
  | updateOverlayed
  | paintUpdate
  | setGeometry
deriving Repr, DecidableEq

/-- The mutable state of the `Preview` class (settings_scale_preview.cpp:88-127) as far
as the claims reach: layout state, cache-emptiness flags (the caches use emptiness as
their dirty flag), visibility/animation state, positioning state, plus the injected
text-metrics oracle and an effect trace. Raster buffer contents and painter state are
outside the model. -/
structure PreviewState where
  scale : Nat
  geometry : Geometry
  shadowSides : Bool
  shadowCorners : Bool
  bubbleCorners : Bool
  bubbleTail : Bool
  bubbleShadowBottomRight : Bool
  userpicOriginal : Option Nat
  userpicImage : Option Nat
  shown : Bool
  widgetHidden : Bool
  hasFilter : Bool
  anim : SimpleAnim
  windowMode : Bool
  parentPos : Int × Int
  parentWidth : Int
  localShiftLeft : Int
  minOuterW : Int
  maxOuterW : Int
  maxOuterH : Int
  screen : Option Rect
  widgetGeometry : Rect
  metrics : Nat → TextMetrics
  effects : List Effect

namespace Preview

/-- `Preview::updateToScale` (settings_scale_preview.cpp:322-432): no-op when the scale
is unchanged; otherwise store the scale, recompute the rect tree, clear the bubble and
shadow caches (and the userpic cache when a userpic is present), and request a repaint.
The raster buffers it also reallocates are outside the model. -/
def updateToScale (st : PreviewState) (scale : Nat) : PreviewState :=
  if st.scale = scale then st
  else
    let hasUserpic := st.userpicOriginal.isSome
    { st with
      scale := scale
      geometry := layout scale hasUserpic st.geometry.userpic (st.metrics scale)
      bubbleCorners := false
      bubbleTail := false
      bubbleShadowBottomRight := false
      userpicImage := if hasUserpic then none else st.userpicImage
      shadowSides := false
      shadowCorners := false
      effects := st.effects ++ [.paintUpdate] }

/-- `QRect::intersects` on the model rects. -/
def rectsIntersect (a b : Rect) : Bool :=
  a.x < b.x + b.w && b.x < a.x + a.w && a.y < b.y + b.h && b.y < a.y + a.h

/-- `Preview::adjustByScreenGeometry` (settings_scale_preview.cpp:470-492). -/
def adjustByScreenGeometry (st : PreviewState) (geometry : Rect) : Rect :=
  match st.screen with
  | none => geometry
  | some s =>
    if ¬ rectsIntersect s geometry ∨ s.w < st.maxOuterW ∨ s.h < st.maxOuterH then
      geometry
    else
      let edgeLeft := s.x
      let edgeRight := s.x + s.w
      let edgedRight := min edgeRight (geometry.x + geometry.w)
      let left := max (min geometry.x (edgedRight - st.maxOuterW)) edgeLeft
      let right := max edgedRight (left + st.maxOuterW)
      ⟨left, geometry.y, right - left, geometry.h⟩

/-- `Preview::updateOuterPosition` (settings_scale_preview.cpp:494-507): in window mode,
track the drag cursor x inside the oversized window, clamped into the window, pinned to
its bottom; a no-op in embedded mode. -/
def updateOuterPosition (st : PreviewState) (globalX : Int) : PreviewState :=
  if st.windowMode then
    let g := st.widgetGeometry
    let desiredLeft := globalX - st.geometry.outer.w / 2 - g.x
    let newLeft := max (min desiredLeft (g.w - st.geometry.outer.w)) 0
    let newTop := st.maxOuterH - st.geometry.outer.h
    { st with
      geometry :=
        { st.geometry with
          outer := { st.geometry.outer with x := newLeft, y := newTop } }
      effects := st.effects ++ [.paintUpdate, .paintUpdate] }
  else st

/-- `Preview::updateWindowGlobalPosition` (settings_scale_preview.cpp:455-468). -/
def updateWindowGlobalPosition (st : PreviewState) (global : Int × Int) (globalX : Int) :
    PreviewState :=
  let desiredLeft := global.1 - st.minOuterW / 2
  let desiredRight := global.1 + st.parentWidth + st.maxOuterW / 2
  let requiredLeft := desiredRight - st.maxOuterW
  let left := min desiredLeft requiredLeft
  let requiredRight := left + st.maxOuterW
  let right := max desiredRight requiredRight
  let top := global.2 - st.maxOuterH
  let result : Rect := ⟨left, top, right - left, st.maxOuterH⟩
  let st1 :=
    { st with
      widgetGeometry := adjustByScreenGeometry st result
      effects := st.effects ++ [.setGeometry] }
  updateOuterPosition st1 globalX

/-- `Preview::updateGlobalPosition(int globalX)` (settings_scale_preview.cpp:434-447).
In embedded (non-window) mode the source reads
`const auto position = parent->pos();` followed by a stray expression statement
`+ QPoint(parent->width() / 2, 0) - QPoint(_outer.width() / 2, _outer.height());`
whose value is discarded, so the geometry is set to the parent position with the outer
size. -/
def updateGlobalPosition (st : PreviewState) (globalX : Int) : PreviewState :=
  if st.windowMode then
    let global := st.parentPos
    let st1 := { st with localShiftLeft := globalX - global.1 }
    updateWindowGlobalPosition st1 global globalX
  else
    let position := st.parentPos
    updateOuterPosition
      { st with
        widgetGeometry := ⟨position.1, position.2, st.geometry.outer.w, st.geometry.outer.h⟩
        effects := st.effects ++ [.setGeometry] }
      globalX

/-- Modelled from the spec: the embedded-mode placement the spec describes — centered
horizontally above the slider's parent and vertically flush above it. The source's
discarded offset expression suggests this was the intended computation. -/
def embeddedPositionIntended (parentPos : Int × Int) (parentWidth : Int) (outer : Rect) :
    Rect :=
  ⟨parentPos.1 + parentWidth / 2 - outer.w / 2, parentPos.2 - outer.h, outer.w, outer.h⟩

/-- `Preview::toggleFilter` (settings_scale_preview.cpp:190-231): drop the event filter
when hidden, install one when shown and none is installed yet. -/
def toggleFilter (st : PreviewState) : PreviewState :=
  if ¬ st.shown then { st with hasFilter := false }
  else if st.hasFilter then st
  else { st with hasFilter := true }

/-- `Preview::toggleShown` (settings_scale_preview.cpp:165-188): no-op when the target
matches; otherwise flip the flag, refresh the filter, show the widget when turning on
(or stop the animation and return when turning off with the widget already hidden), and
start the visibility interpolation whose completion callback hides the widget once a
hide transition has finished. -/
def toggleShown (st : PreviewState) (shown : Bool) : PreviewState :=
  if st.shown = shown then st
  else
    let st1 : PreviewState := toggleFilter { st with shown := shown }
    if shown then
      let st2 : PreviewState :=
        { st1 with widgetHidden := false, effects := st1.effects ++ [.widgetShow] }
      { st2 with anim := st2.anim.start 0 1, effects := st2.effects ++ [.animStart] }
    else if st1.widgetHidden then
      { st1 with anim := st1.anim.stop, effects := st1.effects ++ [.animStop] }
    else
      { st1 with anim := st1.anim.start 1 0, effects := st1.effects ++ [.animStart] }

/-- The animation callback of `Preview::toggleShown` (settings_scale_preview.cpp:177-182):
repaint, and hide the widget once hidden is the target and the animation has finished. -/
def animCallback (st : PreviewState) : PreviewState :=
  let st1 := { st with effects := st.effects ++ [.paintUpdate] }
  if ¬ st1.shown ∧ ¬ st1.anim.animating then
    { st1 with widgetHidden := true, effects := st1.effects ++ [.widgetHide] }
  else st1

/-- An intermediate animation tick: progress moves to `v`, the transition keeps
running, then the callback fires. -/
def animTick (st : PreviewState) (v : ℚ) : PreviewState :=
  animCallback { st with anim := { st.anim with current := v } }

/-- The final animation tick: progress reaches the target, the transition stops, then
the callback fires. -/
def animFinish (st : PreviewState) : PreviewState :=
  animCallback
    { st with anim := { st.anim with current := st.anim.target, animating := false } }

/-- `Preview::toggle` (settings_scale_preview.cpp:150-163): `Hide` only un-toggles;
`Update` is dropped unless shown; otherwise recompute layout for the requested scale,
reposition, overlay-refresh a hidden widget and toggle shown. -/
def toggle (st : PreviewState) (kind : ScalePreviewShow) (scale : Nat) (globalX : Int) :
    PreviewState :=
  if kind = ScalePreviewShow.Hide then
    toggleShown st false
  else if kind = ScalePreviewShow.Update ∧ ¬ st.shown then
    st
  else
    let st1 := updateGlobalPosition (updateToScale st scale) globalX
    let st2 :=
      if st1.widgetHidden then { st1 with effects := st1.effects ++ [.updateOverlayed] }
      else st1
    toggleShown st2 true

/-- The userpic-stream handler installed in the constructor
(settings_scale_preview.cpp:139-145): store the arrived image; when the processed
userpic cache is nonempty, clear it and request a repaint. -/
def userpicArrived (st : PreviewState) (img : Nat) : PreviewState :=
  let st1 := { st with userpicOriginal := some img }
  if st1.userpicImage ≠ none then
    { st1 with userpicImage := none, effects := st1.effects ++ [.paintUpdate] }
  else st1

/-- The palette-change handler installed in `Preview::init`
(settings_scale_preview.cpp:258-264): clear the bubble corner pixmaps, the bubble tail
and the bubble bottom-right shadow pixmap, then request a repaint. -/
def paletteChanged (st : PreviewState) : PreviewState :=
  { st with
    bubbleCorners := false
    bubbleTail := false
    bubbleShadowBottomRight := false
    effects := st.effects ++ [.paintUpdate] }

end Preview

/-- embedding of `SetupScalePreview` (settings_scale_preview.cpp:716-731). The window's
session controller may be null, and `user` is then null too
(`controller ? controller->session().user().get() : nullptr`). The source then
evaluates `auto view = user->activeUserpicView();` unconditionally — into an unused
variable — before the `user ? ... : nullptr` check guarding the userpic producer; the
model maps that dereference of a null user to `Except.error ()`. On success the
returned value says whether the produced callback is live, i.e. invokes
`Preview::toggle` (it always is — no disabled/no-op callback path exists). -/
def SetupScalePreview (sessionControllerUser : Option Nat) : Except Unit Bool :=
  let user := sessionControllerUser
  match user with
  | none => Except.error ()
  | some _ =>
    let _producer : Option Nat := user
    Except.ok true

/-- A flat geometry whose outer rect is 50×40, for positioning evaluations. -/
def geomFlat : Geometry :=
  ⟨⟨0, 0, 0, 0⟩, ⟨0, 0, 0, 0⟩, ⟨0, 0, 0, 0⟩, ⟨0, 0, 0, 0⟩, ⟨0, 0, 0, 0⟩,
    ⟨0, 0, 0, 0⟩, ⟨0, 0, 0, 0⟩, ⟨0, 0, 0, 0⟩, ⟨0, 0, 50, 40⟩⟩

/-- A concrete embedded-mode preview state that is currently shown, with every cache
nonempty, a cached userpic, and a show transition halfway through. -/
def stShown : PreviewState :=
  { scale := 100
    geometry := geomFlat
    shadowSides := true
    shadowCorners := true
    bubbleCorners := true
    bubbleTail := true
    bubbleShadowBottomRight := true
    userpicOriginal := some 7
    userpicImage := some 3
    shown := true
    widgetHidden := false
    hasFilter := true
    anim := { animating := true, current := 1/2, target := 1 }
    windowMode := false
    parentPos := (100, 200)
    parentWidth := 300
    localShiftLeft := 0
    minOuterW := 50
    maxOuterW := 50
    maxOuterH := 40
    screen := none
    widgetGeometry := ⟨0, 0, 0, 0⟩
    metrics := fun _ => metricsA
    effects := [] }

/-- The same concrete preview state, but hidden and idle. -/
def stHidden : PreviewState :=
  { stShown with
    shown := false
    widgetHidden := true
    hasFilter := false
    anim := { animating := false, current := 0, target := 0 } }

/-- C1: `SetupScalePreview` with no session controller (null user). The code does NOT
return a disabled popup: it dereferences the null user (`user->activeUserpicView()`,
line 724) before the null check on line 727, so setup crashes; with a user present the
returned toggle callback is live, not a no-op. -/
theorem setup_crashes_without_session :
    SetupScalePreview none = Except.error ()
      ∧ SetupScalePreview (some 0) = Except.ok true :=
  ⟨rfl, rfl⟩

/-- C2: in embedded mode, `updateGlobalPosition` sets the popup geometry to the
parent's position with the outer size — the centering offsets are discarded by the
stray-semicolon expression statement — which differs from the centered-above placement
the claim describes (left = parent.x + parentWidth/2 − outer.w/2, top = parent.y −
outer.h). Evaluated at parent (100,200) of width 300 with a 50×40 outer rect. -/
theorem embedded_position_uses_parent_pos :
    (Preview.updateGlobalPosition stShown 0).widgetGeometry = ⟨100, 200, 50, 40⟩
      ∧ Preview.embeddedPositionIntended stShown.parentPos stShown.parentWidth
          stShown.geometry.outer = ⟨225, 160, 50, 40⟩
      ∧ ((⟨100, 200, 50, 40⟩ : Rect) ≠ (⟨225, 160, 50, 40⟩ : Rect)) :=
  ⟨rfl, rfl, by decide⟩

/-- C3 counterexample: after a palette change, the shadow side/corner bitmaps and the
userpic bitmap are NOT cleared — only the three bubble caches are — so not every cached
visual asset is empty afterwards, contrary to the claim. -/
theorem palette_change_leaves_shadow_and_userpic :
    (Preview.paletteChanged stShown).shadowSides = true
      ∧ (Preview.paletteChanged stShown).shadowCorners = true
      ∧ (Preview.paletteChanged stShown).userpicImage = some 3 :=
  ⟨rfl, rfl, rfl⟩

/-- C3 (amended): a palette change clears exactly the bubble corner pixmaps, the bubble
tail and the bubble bottom-right shadow pixmap and schedules a repaint; the shadow
side/corner bitmaps and the userpic bitmap keep their cached values (they are
invalidated only by a scale change, or for the userpic by a new source image). -/
theorem palette_change_invalidation (st : PreviewState) :
    (Preview.paletteChanged st).bubbleCorners = false
      ∧ (Preview.paletteChanged st).bubbleTail = false
      ∧ (Preview.paletteChanged st).bubbleShadowBottomRight = false
      ∧ (Preview.paletteChanged st).shadowSides = st.shadowSides
      ∧ (Preview.paletteChanged st).shadowCorners = st.shadowCorners
      ∧ (Preview.paletteChanged st).userpicImage = st.userpicImage
      ∧ (Preview.paletteChanged st).effects = st.effects ++ [Effect.paintUpdate] :=
  ⟨rfl, rfl, rfl, rfl, rfl, rfl, rfl⟩

/-- C4 counterexample: an arriving userpic image identical to the cached original
(`7` arrives while `userpicOriginal = some 7`) still schedules a redraw, because the
handler only checks whether the processed cache is nonempty — it never compares the
images — contrary to the claim that an identical image triggers no redraw. -/
theorem identical_userpic_still_redraws :
    stShown.userpicOriginal = some 7
      ∧ (Preview.userpicArrived stShown 7).effects
          = stShown.effects ++ [Effect.paintUpdate] :=
  ⟨rfl, rfl⟩

/-- C4 (amended): when a userpic image arrives, the handler stores it, and it schedules
a redraw iff the processed (circular-cropped) userpic cache was nonempty — which it
then clears; the arrived image is never compared with the previous one. -/
theorem userpic_arrival_redraw (st : PreviewState) (img : Nat) :
    (Preview.userpicArrived st img).userpicOriginal = some img
      ∧ (Preview.userpicArrived st img).userpicImage = none
      ∧ (Preview.userpicArrived st img).effects
          = st.effects
            ++ (if st.userpicImage = none then [] else [Effect.paintUpdate]) := by
  cases h : st.userpicImage <;>
    simp [Preview.userpicArrived, h]

/-- C5: a Hide request while the preview is shown (also mid show-animation) starts the
hide interpolation from the current animation progress (`value 1` is the progress while
animating, 1 when idle-shown) toward target 0 — last-write-wins on the target — the
widget is not hidden yet, stays visible through every intermediate tick, and is
actually hidden exactly when the interpolation completes. -/
theorem hide_interpolates_then_hides (st : PreviewState)
    (h1 : st.shown = true) (h2 : st.widgetHidden = false) :
    (Preview.toggleShown st false).anim.animating = true
      ∧ (Preview.toggleShown st false).anim.target = 0
      ∧ (Preview.toggleShown st false).anim.current = st.anim.value 1
      ∧ (Preview.toggleShown st false).widgetHidden = false
      ∧ (∀ v : ℚ, (Preview.animTick (Preview.toggleShown st false) v).widgetHidden = false)
      ∧ (Preview.animFinish (Preview.toggleShown st false)).widgetHidden = true := by
  simp [Preview.toggleShown, Preview.toggleFilter, Preview.animTick, Preview.animFinish,
    Preview.animCallback, SimpleAnim.start, SimpleAnim.stop, SimpleAnim.value, h1, h2]

/-- Witness for C5 at the concrete shown state with a half-finished show animation. -/
theorem hide_interpolates_then_hides_witness :
    (Preview.toggleShown stShown false).anim.animating = true
      ∧ (Preview.toggleShown stShown false).anim.target = 0
      ∧ (Preview.toggleShown stShown false).anim.current = stShown.anim.value 1
      ∧ (Preview.toggleShown stShown false).widgetHidden = false
      ∧ (∀ v : ℚ,
          (Preview.animTick (Preview.toggleShown stShown false) v).widgetHidden = false)
      ∧ (Preview.animFinish (Preview.toggleShown stShown false)).widgetHidden = true :=
  hide_interpolates_then_hides stShown rfl rfl

/-- C10: a toggle of kind Hide never recomputes layout — the stored scale, the whole
rect tree and every cached visual asset are unchanged, whatever scale and globalX are
passed — and when the preview is already hidden the call is a complete no-op: the state
(including the effect trace, so no animation start and no widget show/hide) is exactly
unchanged. -/
theorem toggle_hide_preserves_layout (st : PreviewState) (scale : Nat) (globalX : Int) :
    ((Preview.toggle st ScalePreviewShow.Hide scale globalX).scale = st.scale
      ∧ (Preview.toggle st ScalePreviewShow.Hide scale globalX).geometry = st.geometry
      ∧ (Preview.toggle st ScalePreviewShow.Hide scale globalX).shadowSides
          = st.shadowSides
      ∧ (Preview.toggle st ScalePreviewShow.Hide scale globalX).shadowCorners
          = st.shadowCorners
      ∧ (Preview.toggle st ScalePreviewShow.Hide scale globalX).bubbleCorners
          = st.bubbleCorners
      ∧ (Preview.toggle st ScalePreviewShow.Hide scale globalX).bubbleTail
          = st.bubbleTail
      ∧ (Preview.toggle st ScalePreviewShow.Hide scale globalX).bubbleShadowBottomRight
          = st.bubbleShadowBottomRight
      ∧ (Preview.toggle st ScalePreviewShow.Hide scale globalX).userpicImage
          = st.userpicImage)
      ∧ (st.shown = false → Preview.toggle st ScalePreviewShow.Hide scale globalX = st) := by
  have htog : Preview.toggle st ScalePreviewShow.Hide scale globalX
      = Preview.toggleShown st false := by
    simp [Preview.toggle]
  rw [htog]
  constructor
  · by_cases h : st.shown = false
    · simp [Preview.toggleShown, h]
    · cases hw : st.widgetHidden <;>
        simp [Preview.toggleShown, Preview.toggleFilter, h, hw]
  · intro h
    simp [Preview.toggleShown, h]

/-- Witness for C10 at the concrete hidden state: the Hide toggle is the identity. -/
theorem toggle_hide_preserves_layout_witness :
    Preview.toggle stHidden ScalePreviewShow.Hide 55 66 = stHidden :=
  (toggle_hide_preserves_layout stHidden 55 66).2 rfl

end ScalePreview

